import Mathlib

/-!
Verification development for the smartstudy-ai repository.

The definitions below are a shallow embedding of the JavaScript source:
Firestore documents become Lean structures, a database snapshot becomes a
`Db` record of document lists, and each handler / page function becomes a
pure Lean function of the snapshot (plus explicit parameters standing for
the values produced by external services: the verified auth uid, the
Supabase signed-url generator, the Gemini call outcome, and so on).
Awaited calls that a handler try/catches are passed in as `Except` values.
-/

/-- Document of the `consents` Firestore collection
(queried in src/backend/server.js lines 526-530 and 610-614,
src/js/reports.js lines 976-980). -/
structure Consent where
  patientId : String
  doctorId : String
  status : String
deriving Repr, DecidableEq

/-- Document of the `users` collection. `role` is `none` when the document
has no `role` field (the code treats a missing role the same as a non-doctor
role). -/
structure UserDoc where
  uid : String
  role : Option String
deriving Repr, DecidableEq

/-- Document of the `medicalReports` collection (the fields the report
endpoints read). -/
structure Report where
  id : String
  patientId : String
  storagePath : String
deriving Repr, DecidableEq

/-- Document of the `appointments` collection (the fields the consent logic
reads). -/
structure Appointment where
  id : String
  patientId : String
  doctorId : String
  date : String
  time : String
  status : String
  consentGranted : Bool
deriving Repr, DecidableEq

/-- Snapshot of the Firestore collections the consent-gated access checks
read. -/
structure Db where
  users : List UserDoc
  reports : List Report
  consents : List Consent
  appointments : List Appointment
deriving Repr, DecidableEq

/-- Model of `db.collection('medicalReports').doc(reportId).get()`. -/
def findReport (db : Db) (reportId : String) : Option Report :=
  db.reports.find? (fun r => r.id == reportId)

/-- Model of reading `users/{uid}` and taking its `role` field: `none` when
the document does not exist or has no role (both are treated alike by every
caller). -/
def lookupRole (db : Db) (uid : String) : Option String :=
  match db.users.find? (fun u => u.uid == uid) with
  | some u => u.role
  | none => none

/-- Model of the consent query
`consents.where(patientId).where(doctorId).where(status == 'approved')`
being non-empty. -/
def hasApprovedConsent (db : Db) (patientId doctorId : String) : Bool :=
  db.consents.any (fun c =>
    c.patientId == patientId && c.doctorId == doctorId && c.status == "approved")

/-- Model of `db.collection('appointments').doc(appointmentId).get()`. -/
def findAppointment (db : Db) (appointmentId : String) : Option Appointment :=
  db.appointments.find? (fun a => a.id == appointmentId)

/-- JSON body (plus HTTP status) sent by the Express / serverless report
endpoints. Fields absent from a concrete response are `none`. -/
structure HttpResponse where
  status : Nat
  success : Bool
  error : Option String := none
  message : Option String := none
  signedUrl : Option String := none
deriving Repr, DecidableEq

/-- Access-check portion of `GET /api/reports/:reportId/signed-url` in
src/backend/server.js lines 497-536, from the point where the Firebase
token has been verified to `userId`.  `Except.error` carries the response
of a deny/not-found branch; `Except.ok` carries the report the handler
goes on to serve. -/
def signedUrlCheck (db : Db) (userId reportId : String) :
    Except HttpResponse Report :=
  match findReport db reportId with
  | none =>
    .error { status := 404, success := false,
             error := some "Medical report not found" }
  | some reportData =>
    let requesterRole := lookupRole db userId
    let isOwner := reportData.patientId == userId
    let isDoctor := requesterRole == some "doctor"
    if !isOwner && !isDoctor then
      .error { status := 403, success := false,
               error := some "Access denied. Only report owner or authorized doctor may download this file." }
    else if isDoctor && !(hasApprovedConsent db reportData.patientId userId) then
      .error { status := 403, success := false,
               error := some "Access denied. Patient consent required." }
    else
      .ok reportData

/-- Rest of the signed-url handler (src/backend/server.js lines 543-563):
on a granted check it asks Supabase for a signed URL.  `createSignedUrl`
models `supabase.storage.from('medical-reports').createSignedUrl`; its
failure is thrown and caught by the handler's catch block (status 500). -/
def signedUrlHandler (db : Db) (userId reportId : String)
    (createSignedUrl : String → Except String String) : HttpResponse :=
  match signedUrlCheck db userId reportId with
  | .error resp => resp
  | .ok reportData =>
    match createSignedUrl reportData.storagePath with
    | .error _ =>
      { status := 500, success := false,
        error := some "Failed to generate signed URL" }
    | .ok url => { status := 200, success := true, signedUrl := some url }

/-- Access-check portion of `POST /api/reports/:reportId/analyze` in
src/backend/server.js lines 585-621: the requester must have role
`doctor` (`!userDoc.exists || userDoc.data().role !== 'doctor'` is the
deny condition), the report must exist, and an approved consent from the
report's patient must exist — there is no owner shortcut. -/
def analyzeCheck (db : Db) (userId reportId : String) :
    Except HttpResponse Report :=
  if lookupRole db userId != some "doctor" then
    .error { status := 403, success := false,
             error := some "Access denied. Doctor role required." }
  else
    match findReport db reportId with
    | none =>
      .error { status := 404, success := false,
               error := some "Medical report not found" }
    | some reportData =>
      if !(hasApprovedConsent db reportData.patientId userId) then
        .error { status := 403, success := false,
                 error := some "Access denied. Patient consent required." }
      else
        .ok reportData

/-- Access-check portion of the Vercel serverless signed-url handler
(src/api/reports/[reportId]/generate-explanation.js, second document,
lines 104-151): same rule as the Express revision; deny responses go
through `sendError` (`success: false` with the message). -/
def serverlessSignedUrlCheck (db : Db) (userId reportId : String) :
    Except HttpResponse Report :=
  match findReport db reportId with
  | none =>
    .error { status := 404, success := false,
             error := some "Medical report not found" }
  | some reportData =>
    let requesterRole := lookupRole db userId
    let isOwner := reportData.patientId == userId
    let isDoctor := requesterRole == some "doctor"
    if !isOwner && !isDoctor then
      .error { status := 403, success := false,
               error := some "Access denied. Only report owner or authorized doctor may download." }
    else if isDoctor && !(hasApprovedConsent db reportData.patientId userId) then
      .error { status := 403, success := false,
               error := some "Access denied. Patient consent required." }
    else
      .ok reportData

/-- Result shape `{ success, data?, error? }` returned by the client-side
API wrappers. -/
structure JsResult (α : Type) where
  success : Bool
  data : Option α := none
  error : Option String := none
deriving Repr, DecidableEq

/-- Model of `getPatientReportsForDoctor(patientId)` in src/js/reports.js
lines 963-1000: requires an authenticated user, role `doctor`, and an
approved consent record, then returns the patient's reports.
`currentUser` models `auth.currentUser`; the `orderBy('uploadedAt')`
ordering of the returned list is not modelled (the claims only concern the
allow/deny decision). -/
def getPatientReportsForDoctor (db : Db) (currentUser : Option String)
    (patientId : String) : JsResult (List Report) :=
  match currentUser with
  | none => { success := false, error := some "No authenticated user." }
  | some uid =>
    if lookupRole db uid != some "doctor" then
      { success := false, error := some "Access denied. Doctor role required." }
    else if !(hasApprovedConsent db patientId uid) then
      { success := false, error := some "Access denied. Patient consent required." }
    else
      { success := true,
        data := some (db.reports.filter (fun r => r.patientId == patientId)) }

/-- Outcome of the consent/expiry gate at the top of
`viewPatientDetails(patientId, appointmentId)` in src/unnamed/part_002
(doctor-dashboard.js) lines 164-195. `allow` means the gate is passed and
the function proceeds to load and show the patient's data. -/
inductive ViewGate
  | apptNotFound
  | denyNoConsent
  | denyExpired
  | allow
deriving Repr, DecidableEq

/-- Consent/expiry gate of `viewPatientDetails` (src/unnamed/part_002
lines 164-195).  `parseDateTime` models
`new Date(appointment.date + 'T' + appointment.time).getTime()` and `now`
models `new Date()`; the code denies when the appointment is missing, when
`consentGranted` is falsy, or when the appointment time is in the past AND
its status is `accepted`. -/
def viewPatientDetailsGate (parseDateTime : String → String → Int)
    (now : Int) (db : Db) (appointmentId : String) : ViewGate :=
  match findAppointment db appointmentId with
  | none => .apptNotFound
  | some appointment =>
    if !appointment.consentGranted then
      .denyNoConsent
    else if decide (parseDateTime appointment.date appointment.time < now)
        && appointment.status == "accepted" then
      .denyExpired
    else
      .allow

/-- Observable outcome of the generate-explanation handler: the HTTP
response, whether a Gemini call was made, and the Firestore writes
performed. -/
structure ExplanationOutcome where
  response : HttpResponse
  aiCalled : Bool
  writeCollections : List String
deriving Repr, DecidableEq

/-- Model of `POST /api/reports/:reportId/generate-explanation`
(src/backend/server.js lines 724-752, and identically the serverless
revision in src/api/reports/[reportId]/generate-explanation.js lines
16-65), from the point where the token is verified to `userId`: the
handler checks that the report exists and that the requester owns it,
then — Gemini being disabled in the hackathon build — returns HTTP 200
with `success: false` and a fixed message, making no AI call and writing
nothing. -/
def generateExplanationHandler (db : Db) (userId reportId : String) :
    ExplanationOutcome :=
  match findReport db reportId with
  | none =>
    { response := { status := 404, success := false,
                    error := some "Medical report not found" },
      aiCalled := false, writeCollections := [] }
  | some reportData =>
    if reportData.patientId != userId then
      { response := { status := 403, success := false,
                      error := some "Access denied. You can only request explanations for your own reports." },
        aiCalled := false, writeCollections := [] }
    else
      { response := { status := 200, success := false,
                      message := some "Report explanation is available in premium version." },
        aiCalled := false, writeCollections := [] }

/-- One Firestore write site in the repository: where it is in the source
and which collection it targets. -/
structure FirestoreWrite where
  location : String
  collection : String
deriving Repr, DecidableEq

/-- Every Firestore document write in the repository (every `.set`,
`.add`, `.update` or `.delete` on a document reference), transcribed from
the source.  `users/reports` is the `reports` subcollection of a `users`
document. -/
def allFirestoreWrites : List FirestoreWrite :=
  [ { location := "src/backend/server.js:428 (upload handler)", collection := "medicalReports" },
    { location := "src/backend/server.js:697 (analyze handler)", collection := "medicalReports" },
    { location := "src/api/reports/upload.js:272 (serverless upload)", collection := "medicalReports" },
    { location := "src/js/auth.js:44 (registerUser)", collection := "users" },
    { location := "src/unnamed/part_003:43 (registerUser revision)", collection := "users" },
    { location := "src/unnamed/part_003:135 (registerUser revision)", collection := "users" },
    { location := "src/js/profile.js:63 (saveUserProfile)", collection := "users" },
    { location := "src/unnamed/part_001:43 (saveHealthProfile)", collection := "healthProfiles" },
    { location := "src/js/dashboard.js:169 (generateDietPlan save)", collection := "dietPlans" },
    { location := "src/js/exercise.js:199 (generateExercisePlan save)", collection := "exercisePlans" },
    { location := "src/js/reports.js:88 (requestAppointment fast path)", collection := "appointments" },
    { location := "src/js/reports.js:693 (requestAppointment)", collection := "appointments" },
    { location := "src/js/reports.js:799 (grantConsent)", collection := "appointments" },
    { location := "src/js/reports.js:822 (revokeConsent)", collection := "appointments" },
    { location := "src/js/reports.js:478 (deleteMedicalReport)", collection := "users/reports" },
    { location := "src/js/reports.js:516 (deleteReport)", collection := "medicalReports" },
    { location := "src/unnamed/part_002:144 (updateAppointmentStatus)", collection := "appointments" },
    { location := "src/unnamed/part_002:306 (saveDoctorNotes)", collection := "appointments" } ]

/-- Field-level description of one `.update(...)` call: the collection of
the updated document and the exact set of fields the call writes. -/
structure UpdateOp where
  collection : String
  fields : List String
deriving Repr, DecidableEq

/-- Write performed by `grantConsent(appointmentId)` in src/js/reports.js
lines 796-812: an update of the appointment document setting
`consentGranted: true` together with the `consentGrantedAt` and
`updatedAt` server timestamps. -/
def grantConsentWrite : UpdateOp :=
  { collection := "appointments",
    fields := ["consentGranted", "consentGrantedAt", "updatedAt"] }

/-- Write performed by `revokeConsent(appointmentId)` in src/js/reports.js
lines 818-835: an update of the appointment document setting
`consentGranted: false` together with the `consentRevokedAt` and
`updatedAt` server timestamps. -/
def revokeConsentWrite : UpdateOp :=
  { collection := "appointments",
    fields := ["consentGranted", "consentRevokedAt", "updatedAt"] }

/-- Effect of `grantConsent` on the appointment document (the
`consentGranted` field it sets; timestamps are not modelled as document
state). -/
def grantConsentApply (a : Appointment) : Appointment :=
  { a with consentGranted := true }

/-- Effect of `revokeConsent` on the appointment document. -/
def revokeConsentApply (a : Appointment) : Appointment :=
  { a with consentGranted := false }

/-- Profile data of a `users` document as read by the appointment-request
code (`username` / `email`; an empty string models a missing/falsy field,
matching the `a || b` fallbacks of the source). -/
structure UserProfile where
  username : String
  email : String
deriving Repr, DecidableEq

/-- Appointment document as built by `requestAppointment`
(src/js/reports.js lines 679-691). `createdAt`/`updatedAt` server
timestamps are not modelled. -/
structure AppointmentData where
  patientId : String
  patientName : String
  doctorId : String
  doctorName : String
  date : String
  time : String
  reason : String
  status : String
  consentGranted : Bool
deriving Repr, DecidableEq

/-- JavaScript string truthiness fallback `a || b`. -/
def strOr (a b : String) : String :=
  if a == "" then b else a

/-- Model of `requestAppointment(doctorId, dateTime, reason)` in
src/js/reports.js lines 659-701.  `currentUser` models
`auth.currentUser` (uid); `getProfile` models `getUserProfile` (`none` =
`success: false`); `parseDateTime` models the `new Date(dateTime)` →
(`date`, `time`) string formatting.  On success the function `.add`s the
returned document to the `appointments` collection. -/
def requestAppointment (currentUser : Option String)
    (getProfile : String → Option UserProfile)
    (parseDateTime : String → String × String)
    (doctorId dateTime reason : String) :
    Except String AppointmentData :=
  match currentUser with
  | none => .error "No authenticated user."
  | some uid =>
    match getProfile uid with
    | none => .error "Patient profile not found."
    | some patientProfile =>
      let date := (parseDateTime dateTime).1
      let time := (parseDateTime dateTime).2
      match getProfile doctorId with
      | none => .error "Doctor not found."
      | some doctorProfile =>
        .ok { patientId := uid,
              patientName := strOr patientProfile.username patientProfile.email,
              doctorId := doctorId,
              doctorName := "Dr. " ++ strOr doctorProfile.username doctorProfile.email,
              date := date, time := time, reason := reason,
              status := "pending", consentGranted := false }

/-- Model of the fast-path appointment-creation stub in src/js/reports.js
lines 38-100 (the `appointmentData` built at lines 74-88): the patient
profile read is best-effort (on failure it falls back to
`{ email: user.email }`), the doctor must exist, and the document written
has the same `status`/`consentGranted`/`patientId`/`doctorId` fields as
the main revision.  `userEmail` models `user.email`. -/
def requestAppointmentFastPath (currentUser : Option (String × String))
    (getProfile : String → Option UserProfile)
    (parseDateTime : String → String × String)
    (doctorId dateTime reason : String) :
    Except String AppointmentData :=
  match currentUser with
  | none => .error "No authenticated user."
  | some user =>
    let uid := user.1
    let userEmail := user.2
    let patientProfile :=
      match getProfile uid with
      | some p => p
      | none => { username := "", email := userEmail }
    let date := (parseDateTime dateTime).1
    let time := (parseDateTime dateTime).2
    match getProfile doctorId with
    | none => .error "Doctor not found."
    | some doctorProfile =>
      .ok { patientId := uid,
            patientName := strOr patientProfile.username
              (strOr patientProfile.email userEmail),
            doctorId := doctorId,
            doctorName := "Dr. " ++ strOr doctorProfile.username doctorProfile.email,
            date := date, time := time, reason := reason,
            status := "pending", consentGranted := false }

/-- Model of `registerUser(email, password, username, age, gender, role)`
in src/js/auth.js lines 33-58.  Each awaited SDK call is passed in as an
`Except String` value (`.error` = the call threw, carrying
`err.message`); a thrown call transfers control to the catch block, which
returns `{ success: false, error }`.  `createUser` yields the new uid,
`updateProfile` models `user.updateProfile`, `setUserDoc` models the
Firestore `users/{uid}` write. -/
def registerUser (createUser : Except String String)
    (updateProfile : Except String Unit)
    (setUserDoc : Except String Unit) : JsResult String :=
  match createUser with
  | .error e => { success := false, error := some e }
  | .ok uid =>
    match updateProfile with
    | .error e => { success := false, error := some e }
    | .ok _ =>
      match setUserDoc with
      | .error e => { success := false, error := some e }
      | .ok _ => { success := true, data := some uid }

/-- Model of `loginUser(email, password)` in src/js/auth.js lines 64-74:
`signIn` models `auth.signInWithEmailAndPassword` yielding the user's
uid. -/
def loginUser (signIn : Except String String) : JsResult String :=
  match signIn with
  | .error e => { success := false, error := some e }
  | .ok uid => { success := true, data := some uid }

/-- Model of `getUserProfile(uid)` in src/js/auth.js lines 108-127.
`uidArg` is the optional argument, `currentUser` models
`auth.currentUser?.uid`, and `getDoc` models the Firestore read
(`.ok none` = document does not exist). -/
def getUserProfile (uidArg currentUser : Option String)
    (getDoc : String → Except String (Option UserProfile)) :
    JsResult UserProfile :=
  match uidArg.orElse (fun _ => currentUser) with
  | none => { success := false, error := some "No user ID provided" }
  | some userId =>
    match getDoc userId with
    | .error e => { success := false, error := some e }
    | .ok (some d) => { success := true, data := some d }
    | .ok none => { success := false, error := some "User profile not found" }

/-- Height/weight input of the health-profile form (src/unnamed/part_001).
JavaScript numbers are modelled as rationals; `toFixed(2)` rounding of the
displayed BMI value is not modelled. -/
structure HealthProfileInput where
  height : ℚ
  weight : ℚ
deriving Repr, DecidableEq

/-- Model of `calculateBMI(height, weight)` in src/unnamed/part_001 lines
7-27: BMI = weight / (height/100)^2, with the status thresholds of the
source. -/
def calculateBMI (height weight : ℚ) : ℚ × String :=
  let heightInMeters := height / 100
  let bmi := weight / (heightInMeters * heightInMeters)
  let status :=
    if bmi < 37/2 then "Underweight"
    else if bmi < 25 then "Normal"
    else if bmi < 30 then "Overweight"
    else "Obese"
  (bmi, status)

/-- Model of `saveHealthProfile(profileData)` in src/unnamed/part_001
lines 30-52: requires an authenticated user, computes the BMI, and writes
the merged profile to `healthProfiles/{uid}`; a thrown write is caught
and returned as `{ success: false, error }`. -/
def saveHealthProfile (currentUser : Option String)
    (profileData : HealthProfileInput)
    (setDoc : Except String Unit) : JsResult (ℚ × String) :=
  match currentUser with
  | none => { success := false, error := some "User not authenticated" }
  | some _ =>
    let bmi := calculateBMI profileData.height profileData.weight
    match setDoc with
    | .error e => { success := false, error := some e }
    | .ok _ => { success := true, data := some bmi }

/-- Health-profile document fields read back by `getHealthProfile`. -/
structure HealthProfileDoc where
  height : ℚ
  weight : ℚ
  bmi : ℚ
  bmiStatus : String
deriving Repr, DecidableEq

/-- Model of `getHealthProfile()` in src/unnamed/part_001 lines 55-73:
requires an authenticated user and reads `healthProfiles/{uid}`
(`.ok none` = document does not exist). -/
def getHealthProfile (currentUser : Option String)
    (getDoc : Except String (Option HealthProfileDoc)) :
    JsResult HealthProfileDoc :=
  match currentUser with
  | none => { success := false, error := some "User not authenticated" }
  | some _ =>
    match getDoc with
    | .error e => { success := false, error := some e }
    | .ok none => { success := false, error := some "Profile not found" }
    | .ok (some d) => { success := true, data := some d }

/-- Health-profile fields interpolated into the diet / exercise prompts
and sample plans (all interpolated as text; an empty string models a
missing/falsy field). -/
structure HealthProfile where
  age : String
  gender : String
  bmi : String
  bmiStatus : String
  activityLevel : String
  bloodPressure : String
  bloodSugar : String
deriving Repr, DecidableEq

/-- Outcome of the Gemini `generateContent` fetch made by the plan
generators: the fetch (or `response.json()`) threw, the response was not
ok (the code then throws `Gemini API request failed`), or it succeeded
with the optional candidate text
(`data.candidates?.[0]?.content?.parts?.[0]?.text`). -/
inductive GeminiOutcome
  | threw
  | notOk
  | ok (text : Option String)
deriving Repr, DecidableEq

/-- Text the try-block around the Gemini call produces: `none` exactly
when control reaches the catch block (thrown fetch, non-ok response, or
missing/empty generated text — `text || null` treats the empty string as
missing, and `No content generated` is thrown on null). -/
def geminiText : GeminiOutcome → Option String
  | .threw => none
  | .notOk => none
  | .ok none => none
  | .ok (some t) => if t == "" then none else some t

/-- Values the `switch (dietType)` of `generateDietPlan`
(src/js/dashboard.js lines 53-92) assigns to
(`dietGoal`, `isVegetarian`, `medicalCondition`); the prompt string built
alongside is consumed only by the abstracted Gemini call. -/
def dietSwitch (dietType preferencesDisease : String) :
    String × Bool × String :=
  match dietType with
  | "weight-loss-veg" => ("Weight Loss", true, "")
  | "weight-loss-nonveg" => ("Weight Loss", false, "")
  | "weight-gain" => ("Weight Gain", false, "")
  | "maintain-weight" => ("Maintain Weight", false, "")
  | "bp-patient" => ("Blood Pressure Management", false, "Blood Pressure")
  | "sugar-patient" => ("Blood Sugar Management", false, "Diabetes")
  | "custom" => ("Custom Health Condition", false,
                 strOr preferencesDisease "general health")
  | _ => ("General Health", false, "")

/-- One entry of the `basePlan` table in `getSampleDietPlan`
(src/js/dashboard.js lines 200-264); `mealStructure` is the source's
`structure` field. -/
structure SampleDietBase where
  title : String
  calories : String
  mealStructure : String
deriving Repr, DecidableEq

/-- The `basePlan` table lookup `basePlan[dietType] ||
basePlan['maintain-weight']` of `getSampleDietPlan`. -/
def sampleDietBase (dietType : String) : SampleDietBase :=
  match dietType with
  | "weight-loss-veg" =>
    { title := "7-Day Vegetarian Weight Loss Diet Plan",
      calories := "1500-1800 kcal/day",
      mealStructure := "**Breakfast (8:00 AM)**: Oatmeal with berries and nuts (300 kcal)\n**Mid-morning Snack (10:30 AM)**: Greek yogurt with apple (150 kcal)\n**Lunch (1:00 PM)**: Quinoa salad with mixed vegetables and chickpeas (400 kcal)\n**Afternoon Snack (4:00 PM)**: Carrot sticks with hummus (150 kcal)\n**Dinner (7:00 PM)**: Grilled tofu with steamed broccoli and brown rice (400 kcal)\n**Evening Drink (9:00 PM)**: Herbal tea (0 kcal)" }
  | "weight-loss-nonveg" =>
    { title := "7-Day Non-Vegetarian Weight Loss Diet Plan",
      calories := "1600-1900 kcal/day",
      mealStructure := "**Breakfast (8:00 AM)**: Scrambled eggs with spinach and whole grain toast (350 kcal)\n**Mid-morning Snack (10:30 AM)**: Cottage cheese with cucumber (150 kcal)\n**Lunch (1:00 PM)**: Grilled chicken breast with mixed greens salad (450 kcal)\n**Afternoon Snack (4:00 PM)**: Protein shake with banana (200 kcal)\n**Dinner (7:00 PM)**: Baked fish with quinoa and steamed vegetables (400 kcal)\n**Evening Drink (9:00 PM)**: Green tea (0 kcal)" }
  | "weight-gain" =>
    { title := "7-Day Weight Gain Diet Plan",
      calories := "2800-3200 kcal/day",
      mealStructure := "**Breakfast (8:00 AM)**: Protein smoothie with banana, peanut butter, and oats (600 kcal)\n**Mid-morning Snack (10:30 AM)**: Whole grain sandwich with cheese and avocado (500 kcal)\n**Lunch (1:00 PM)**: Chicken curry with rice and vegetables (700 kcal)\n**Afternoon Snack (4:00 PM)**: Nuts, dried fruits, and cheese (400 kcal)\n**Dinner (7:00 PM)**: Pasta with meat sauce and garlic bread (600 kcal)\n**Evening Drink (9:00 PM)**: Protein shake (200 kcal)" }
  | "bp-patient" =>
    { title := "7-Day Low-Sodium Blood Pressure Diet Plan",
      calories := "1800-2000 kcal/day",
      mealStructure := "**Breakfast (8:00 AM)**: Oatmeal with fresh berries (no salt) (300 kcal)\n**Mid-morning Snack (10:30 AM)**: Fresh fruit salad (150 kcal)\n**Lunch (1:00 PM)**: Grilled chicken with unsalted rice and steamed vegetables (450 kcal)\n**Afternoon Snack (4:00 PM)**: Carrot sticks with unsalted hummus (150 kcal)\n**Dinner (7:00 PM)**: Baked fish with quinoa and low-sodium herbs (400 kcal)\n**Evening Drink (9:00 PM)**: Unsweetened herbal tea (0 kcal)" }
  | "sugar-patient" =>
    { title := "7-Day Diabetic-Friendly Diet Plan",
      calories := "1600-1800 kcal/day",
      mealStructure := "**Breakfast (8:00 AM)**: Whole grain toast with avocado and eggs (300 kcal)\n**Mid-morning Snack (10:30 AM)**: Handful of almonds (150 kcal)\n**Lunch (1:00 PM)**: Grilled chicken salad with olive oil dressing (400 kcal)\n**Afternoon Snack (4:00 PM)**: Greek yogurt with low-GI berries (150 kcal)\n**Dinner (7:00 PM)**: Baked salmon with sweet potato and green vegetables (400 kcal)\n**Evening Drink (9:00 PM)**: Water with lemon (0 kcal)" }
  | _ =>
    { title := "7-Day Weight Maintenance Diet Plan",
      calories := "2000-2200 kcal/day",
      mealStructure := "**Breakfast (8:00 AM)**: Whole grain cereal with milk and fruits (350 kcal)\n**Mid-morning Snack (10:30 AM)**: Yogurt with granola (200 kcal)\n**Lunch (1:00 PM)**: Turkey sandwich with salad (450 kcal)\n**Afternoon Snack (4:00 PM)**: Apple with almond butter (200 kcal)\n**Dinner (7:00 PM)**: Grilled salmon with sweet potato and vegetables (500 kcal)\n**Evening Drink (9:00 PM)**: Herbal tea (0 kcal)" }

/-- Model of `getSampleDietPlan(dietType, profile, dietGoal,
medicalCondition, isVegetarian)` in src/js/dashboard.js lines 199-306:
the hardcoded fallback plan text assembled from the `basePlan` entry for
the selected type. -/
def getSampleDietPlan (dietType : String) (profile : HealthProfile)
    (dietGoal medicalCondition : String) (isVegetarian : Bool) : String :=
  let plan := sampleDietBase dietType
  "# " ++ plan.title ++
  "\n\n## Nutritional Overview\n- **Daily Calories**: " ++ plan.calories ++
  "\n- **Macronutrients**: 40% carbs, 30% protein, 30% fats\n- **Goal**: " ++
  dietGoal ++ "\n" ++
  (if medicalCondition != "" then "- **Medical Focus**: " ++ medicalCondition else "") ++
  "\n- **Diet Type**: " ++ (if isVegetarian then "Vegetarian" else "Non-Vegetarian") ++
  "\n\n## Daily Meal Structure\n" ++ plan.mealStructure ++
  "\n\n## Do\x27s and Don\x27ts\n\n### Foods to Include:\n" ++
  (if isVegetarian then
    "- Leafy greens, legumes, whole grains\n- Nuts and seeds\n- Fresh fruits and vegetables\n- Dairy products (low-fat)"
   else
    "- Lean proteins (chicken, fish, eggs)\n- Whole grains and legumes\n- Fresh fruits and vegetables\n- Healthy fats (avocado, nuts)") ++
  "\n\n### Foods to Avoid/Limit:\n" ++
  (if medicalCondition == "Blood Pressure" then
    "- Processed foods high in sodium\n- Canned foods\n- Fast food\n- Excessive salt"
   else if medicalCondition == "Diabetes" then
    "- Sugary foods and beverages\n- Refined carbohydrates\n- High-GI foods\n- Excessive sweets"
   else
    "- Processed snacks\n- Sugary drinks\n- Excessive fried foods\n- High-calorie desserts") ++
  "\n\n### Eating Habits:\n- Eat every 3-4 hours\n- Stay hydrated throughout the day\n- Practice portion control\n- Include protein in every meal" ++
  "\n\n## Water Intake Recommendation\n- **Daily Goal**: 8-10 glasses (2.5-3 liters)\n- **Activity Adjustment**: Add 1 extra glass for every 30 minutes of exercise\n- **Tips**: Drink water before meals, carry a water bottle, set reminders" ++
  "\n\n## Health Considerations\nThis diet plan is designed to support " ++
  dietGoal.toLower ++ " while considering your BMI status (" ++
  profile.bmiStatus ++ ") and activity level (" ++ profile.activityLevel ++ "). " ++
  (if medicalCondition != "" then
    "Special attention is given to managing " ++ medicalCondition ++ "." else "") ++
  "\n\n*Note: This is a general plan. Consult with a healthcare professional for personalized advice.*"

/-- Result `{ success, plan?, goal?, condition?, error? }` of the diet /
exercise plan generators (the exercise generator returns no `condition`
field, modelled as `none`). -/
structure PlanResult where
  success : Bool
  plan : Option String := none
  goal : Option String := none
  condition : Option String := none
  error : Option String := none
deriving Repr, DecidableEq

/-- Model of `generateDietPlan(dietType, preferences)` in
src/js/dashboard.js lines 39-197.  `profileResult` models the
`getHealthProfile()` call (`none` = `success: false`); `gemini` is the
outcome of the Gemini fetch; the Firestore save of the plan metadata is
wrapped in its own try/catch whose failure only logs, so it is passed as
`_savePlan` and cannot affect the result. -/
def generateDietPlan (dietType preferencesDisease : String)
    (profileResult : Option HealthProfile) (gemini : GeminiOutcome)
    (_savePlan : Except String Unit) : PlanResult :=
  match profileResult with
  | none => { success := false, error := some "Health profile not found" }
  | some profile =>
    let params := dietSwitch dietType preferencesDisease
    let dietGoal := params.1
    let isVegetarian := params.2.1
    let medicalCondition := params.2.2
    let dietPlan :=
      match geminiText gemini with
      | some t => t
      | none => getSampleDietPlan dietType profile dietGoal medicalCondition isVegetarian
    { success := true, plan := some dietPlan, goal := some dietGoal,
      condition := some medicalCondition }

/-- Value the `switch (condition)` of `generateExercisePlan`
(src/js/exercise.js lines 89-119) assigns to `exerciseGoal`. -/
def exerciseSwitch (condition customDisease : String) : String :=
  match condition with
  | "bp" => "Blood Pressure Management"
  | "sugar" => "Blood Sugar Regulation"
  | "low-activity" => "Beginner Fitness Building"
  | "moderate-activity" => "Intermediate Fitness Maintenance"
  | "high-activity" => "Advanced Fitness Training"
  | _ =>
    if customDisease != "" then "Custom: " ++ customDisease ++ " Management"
    else "General Fitness"

/-- Model of `getSampleExercisePlan(condition, customDisease, profile,
exerciseGoal)` in src/js/exercise.js lines 228-318: the hardcoded
fallback exercise plan (the `targetCondition` local of the source is
computed but never used in the returned text). -/
def getSampleExercisePlan (_condition _customDisease : String)
    (profile : HealthProfile) (exerciseGoal : String) : String :=
  "# 5-Day " ++ exerciseGoal ++ " Exercise Plan" ++
  "\n\n## Program Overview\n- **Goal**: " ++ exerciseGoal ++
  "\n- **Duration**: 5 days/week with 2 rest days\n- **Total Weekly Time**: 90-120 minutes\n- **Fitness Level**: " ++
  profile.activityLevel ++
  "\n- **Health Considerations**: " ++ profile.bmiStatus ++ " BMI, Age " ++ profile.age ++
  "\n\n## Daily Structure\n\n### **Warm-up Routine** (5-10 minutes)\n1. March in place - 2 minutes\n2. Arm circles (forward and backward) - 1 minute each direction\n3. Shoulder rolls - 1 minute\n4. Gentle neck stretches - 1 minute\n5. Ankle and wrist rotations - 1 minute" ++
  "\n\n### **Main Workout** (20-45 minutes)\n**Day 1: Cardio Focus**\n- Brisk walking or light jogging - 20-30 minutes\n- Bodyweight squats - 3 sets of 10-15 reps\n- Wall push-ups - 3 sets of 8-12 reps" ++
  "\n\n**Day 2: Strength Training**\n- Marching in place with knee lifts - 5 minutes\n- Seated leg lifts - 3 sets of 12 reps each leg\n- Arm raises with light weights or water bottles - 3 sets of 10 reps\n- Standing calf raises - 3 sets of 15 reps" ++
  "\n\n**Day 3: Flexibility & Balance**\n- Standing balance exercises - 5 minutes\n- Gentle yoga poses (tree pose, warrior pose) - 10 minutes\n- Seated forward bends - 3 sets of 20 seconds hold\n- Shoulder and back stretches - 5 minutes" ++
  "\n\n**Day 4: Mixed Cardio-Strength**\n- Light cardio intervals - 15 minutes (1 min activity, 30 sec rest)\n- Resistance band exercises or bodyweight - 15 minutes\n- Core strengthening (seated twists, gentle planks) - 10 minutes" ++
  "\n\n**Day 5: Active Recovery**\n- Gentle walking - 20 minutes\n- Full body stretching routine - 15 minutes\n- Deep breathing exercises - 5 minutes" ++
  "\n\n### **Cool-down Routine** (5-10 minutes)\n1. Slow walking to lower heart rate - 2 minutes\n2. Static stretches for major muscle groups - 5 minutes\n   - Hamstring stretch\n   - Quadriceps stretch\n   - Shoulder stretch\n   - Back stretch\n3. Deep breathing and relaxation - 3 minutes" ++
  "\n\n## Weekly Schedule\n- **Monday**: Cardio Focus\n- **Tuesday**: Strength Training\n- **Wednesday**: Rest or light walking\n- **Thursday**: Flexibility & Balance\n- **Friday**: Mixed Cardio-Strength\n- **Saturday**: Active Recovery\n- **Sunday**: Complete rest" ++
  "\n\n## Safety Guidelines\n- Listen to your body - stop if you feel pain (beyond normal muscle fatigue)\n- Stay hydrated throughout the workout\n- Breathe normally and don\x27t hold your breath\n- Start slow and gradually increase intensity\n- Consult your doctor before starting any new exercise program" ++
  "\n\n## Progress Tracking\n- Keep a workout journal\n- Note how you feel after each session\n- Gradually increase duration or intensity as you get stronger\n- Aim for consistency over perfection" ++
  "\n\n## YouTube Resources\n- \"Beginner Home Workout\": https://www.youtube.com/watch?v=example1\n- \"Chair Exercises for Seniors\": https://www.youtube.com/watch?v=example2\n- \"Gentle Yoga for Health\": https://www.youtube.com/watch?v=example3" ++
  "\n\n## Health Considerations\nThis plan is designed to support " ++
  exerciseGoal.toLower ++
  " while being safe for your current health profile. Monitor your " ++
  (if profile.bloodPressure != "" then "blood pressure" else "energy levels") ++
  " and consult healthcare providers as needed." ++
  "\n\n*Disclaimer: This is a general exercise plan. Consult with a healthcare professional before starting any exercise program, especially if you have medical conditions.*"

/-- Model of `generateExercisePlan(condition, customDisease)` in
src/js/exercise.js lines 77-225.  `user` models `auth.currentUser`;
`profileResult` models `getHealthProfile()`; `gemini` is the Gemini fetch
outcome; the Firestore save is in its own try/catch (failure only logs). -/
def generateExercisePlan (condition customDisease : String)
    (user : Option String) (profileResult : Option HealthProfile)
    (gemini : GeminiOutcome) (_savePlan : Except String Unit) : PlanResult :=
  match user with
  | none => { success := false, error := some "User not authenticated" }
  | some _ =>
    match profileResult with
    | none => { success := false, error := some "Health profile not found" }
    | some profile =>
      let exerciseGoal := exerciseSwitch condition customDisease
      let exercisePlan :=
        match geminiText gemini with
        | some t => t
        | none => getSampleExercisePlan condition customDisease profile exerciseGoal
      { success := true, plan := some exercisePlan, goal := some exerciseGoal }

/-- Concrete health profile used to instantiate witnesses. -/
def exProfile : HealthProfile :=
  { age := "30", gender := "male", bmi := "22", bmiStatus := "Normal",
    activityLevel := "moderate", bloodPressure := "120/80", bloodSugar := "90" }

/-- Concrete snapshot: the requester `p1` is the report owner, has role
`patient`, and an approved consent record for doctor `d9` exists. -/
def dbPatientOwner : Db :=
  { users := [{ uid := "p1", role := some "patient" }],
    reports := [{ id := "r1", patientId := "p1", storagePath := "path1" }],
    consents := [{ patientId := "p1", doctorId := "d9", status := "approved" }],
    appointments := [] }

/-- Concrete snapshot: the requester `p2` owns report `r2` and has role
`patient`; no consent records exist. -/
def dbOwner : Db :=
  { users := [{ uid := "p2", role := some "patient" }],
    reports := [{ id := "r2", patientId := "p2", storagePath := "path2" }],
    consents := [], appointments := [] }

/-- Concrete snapshot: doctor `d1` has an approved consent from patient
`p1`, who owns report `r1`. -/
def dbDoctorConsent : Db :=
  { users := [{ uid := "d1", role := some "doctor" }],
    reports := [{ id := "r1", patientId := "p1", storagePath := "s1" }],
    consents := [{ patientId := "p1", doctorId := "d1", status := "approved" }],
    appointments := [] }

/-- Concrete snapshot of appointments in various consent/status states. -/
def dbAppts : Db :=
  { users := [], reports := [], consents := [],
    appointments :=
      [ { id := "a1", patientId := "p1", doctorId := "d1",
          date := "2024-01-01", time := "10:00",
          status := "accepted", consentGranted := true },
        { id := "a2", patientId := "p1", doctorId := "d1",
          date := "2024-01-02", time := "10:00",
          status := "pending", consentGranted := true },
        { id := "a3", patientId := "p1", doctorId := "d1",
          date := "2024-01-03", time := "10:00",
          status := "accepted", consentGranted := false } ] }

/-- Concrete stand-in for `new Date(date + 'T' + time).getTime()`: every
appointment parses to instant 100. -/
def exParseDT : String → String → Int := fun _ _ => 100

/-- Parsed JSON body of the backend upload response as read by
`uploadMedicalReport` (`response.success`, `response.error` — an empty
string models a falsy/absent error field — and `response.reportId`). -/
structure UploadResponse where
  success : Bool
  error : String
  reportId : String
deriving Repr, DecidableEq

/-- Outcome of the XMLHttpRequest in `uploadMedicalReport`: the request
errored (`xhr.onerror`), or it loaded with an HTTP status and a response
text that either fails to parse as JSON (`.error` carries the parse error
message) or parses to an `UploadResponse`. -/
inductive XhrOutcome
  | networkError
  | loaded (status : Nat) (parsed : Except String UploadResponse)
deriving Repr

/-- Model of the Promise stage of `uploadMedicalReport` (src/js/reports.js
lines 179-219).  `Except.error` is a rejected promise — and because the
enclosing try block returns the promise without awaiting it, a rejection
is NOT intercepted by the function's catch block: it is thrown to the
caller.  The resolve path (`xhr.status === 200 && response.success`)
yields a `{ success: true, data }` object (data abbreviated to the report
id); any other parsed response rejects with
`response.error || 'Upload failed with status ' + xhr.status`; a
JSON-parse failure rejects with `'Invalid response from server: ' +
message`; a network error rejects with `'Network error during upload'`. -/
def uploadMedicalReportXhr : XhrOutcome → Except String (JsResult String)
  | .networkError => .error "Network error during upload"
  | .loaded _ (.error e) => .error ("Invalid response from server: " ++ e)
  | .loaded status (.ok response) =>
    if status == 200 && response.success then
      .ok { success := true, data := some response.reportId }
    else
      .error (strOr response.error
        ("Upload failed with status " ++ toString status))

/-- Return value of `grantConsent(appointmentId)` (src/js/reports.js
lines 796-812) as seen by its caller: the function has no return
statement on any path — it alerts and reloads on success and alerts on a
caught failure — so the caller receives `undefined` (here `none`)
whatever the outcome of the appointments update, never a
`{ success, error }` object. -/
def grantConsentReturn (_update : Except String Unit) :
    Option (JsResult Unit) := none

/-- Return value of `revokeConsent(appointmentId)` (src/js/reports.js
lines 818-835): no return statement on any path, exactly like
`grantConsentReturn`. -/
def revokeConsentReturn (_update : Except String Unit) :
    Option (JsResult Unit) := none

/-- Model of `deleteMedicalReport(reportDocId, storagePath)`
(src/js/reports.js lines 471-484): requires a user, then awaits the
Firestore delete inside try/catch. -/
def deleteMedicalReport (currentUser : Option String)
    (deleteDoc : Except String Unit) : JsResult Unit :=
  match currentUser with
  | none => { success := false, error := some "No authenticated user." }
  | some _ =>
    match deleteDoc with
    | .error e => { success := false, error := some e }
    | .ok _ => { success := true }

/-- Model of `getMedicalReports()` (src/js/reports.js lines 230-271):
requires a user, then awaits the reports query inside try/catch (the
client-side sort by `uploadedAt` is not modelled). -/
def getMedicalReports (currentUser : Option String)
    (query : Except String (List Report)) : JsResult (List Report) :=
  match currentUser with
  | none => { success := false, error := some "No authenticated user." }
  | some _ =>
    match query with
    | .error e => { success := false, error := some e }
    | .ok reports => { success := true, data := some reports }

/-- Result object `requestAppointment` hands to its caller
(src/js/reports.js lines 659-701): the early-exit errors modelled by
`requestAppointment` and a thrown `appointments.add` are all returned as
`{ success: false, error }` objects by the surrounding try/catch, and a
successful add returns `{ success: true }`. -/
def requestAppointmentResult (r : Except String AppointmentData)
    (addDoc : AppointmentData → Except String Unit) : JsResult Unit :=
  match r with
  | .error e => { success := false, error := some e }
  | .ok a =>
    match addDoc a with
    | .error e => { success := false, error := some e }
    | .ok _ => { success := true }

/-- C9: for every authenticated request by the report's owner, the
generate-explanation endpoint returns HTTP 200 with `success: false` and
the fixed message `Report explanation is available in premium version.`,
makes no AI call, and performs no Firestore write (the feature is
unconditionally disabled). -/
theorem generateExplanation_disabled_for_owner (db : Db) (uid rid : String)
    (r : Report) (hfind : findReport db rid = some r)
    (howner : r.patientId = uid) :
    generateExplanationHandler db uid rid =
      { response := { status := 200, success := false,
                      message := some "Report explanation is available in premium version." },
        aiCalled := false, writeCollections := [] } := by
  unfold generateExplanationHandler
  rw [hfind]
  simp [howner]

/-- Witness for `generateExplanation_disabled_for_owner` at a concrete
owner request. -/
theorem generateExplanation_disabled_for_owner_witness :
    findReport dbOwner "r2" =
      some { id := "r2", patientId := "p2", storagePath := "path2" } ∧
    generateExplanationHandler dbOwner "p2" "r2" =
      { response := { status := 200, success := false,
                      message := some "Report explanation is available in premium version." },
        aiCalled := false, writeCollections := [] } :=
  ⟨by rfl,
   generateExplanation_disabled_for_owner dbOwner "p2" "r2"
     { id := "r2", patientId := "p2", storagePath := "path2" } (by rfl) rfl⟩

/-- C10: in the doctor-dashboard revision, `viewPatientDetails` denies
whenever the appointment's `consentGranted` is false, and applies the
expiry rule only to status `accepted`: a consented appointment whose
date/time is past but whose status is not `accepted` is still allowed
(and a consented, accepted, past appointment is denied as expired). -/
theorem viewPatientDetails_gate_spec (parse : String → String → Int)
    (now : Int) (db : Db) (aid : String) (a : Appointment)
    (hfind : findAppointment db aid = some a) :
    (a.consentGranted = false →
      viewPatientDetailsGate parse now db aid = .denyNoConsent) ∧
    (a.consentGranted = true → parse a.date a.time < now →
      a.status ≠ "accepted" →
      viewPatientDetailsGate parse now db aid = .allow) ∧
    (a.consentGranted = true → a.status = "accepted" →
      parse a.date a.time < now →
      viewPatientDetailsGate parse now db aid = .denyExpired) := by
  unfold viewPatientDetailsGate
  rw [hfind]
  refine ⟨fun hc => by simp [hc], fun hc hpast hs => ?_, fun hc hs hpast => ?_⟩
  · simp [hc, hs]
  · simp [hc, hs, hpast]

/-- Witness for `viewPatientDetails_gate_spec`: a consented appointment in
the past with status `pending` is still allowed, and the no-consent /
expired branches fire on their concrete appointments. -/
theorem viewPatientDetails_gate_spec_witness :
    viewPatientDetailsGate exParseDT 200 dbAppts "a2" = .allow ∧
    viewPatientDetailsGate exParseDT 200 dbAppts "a3" = .denyNoConsent := by
  constructor
  · exact (viewPatientDetails_gate_spec exParseDT 200 dbAppts "a2"
      { id := "a2", patientId := "p1", doctorId := "d1",
        date := "2024-01-02", time := "10:00",
        status := "pending", consentGranted := true } (by rfl)).2.1
      rfl (by decide) (by decide)
  · exact (viewPatientDetails_gate_spec exParseDT 200 dbAppts "a3"
      { id := "a3", patientId := "p1", doctorId := "d1",
        date := "2024-01-03", time := "10:00",
        status := "accepted", consentGranted := false } (by rfl)).1 rfl

/-- C4 counterexample: for one fixed database state (appointment `a1`:
consentGranted, status `accepted`, parsing to instant 100), the
doctor-dashboard revision of the check evaluates to ALLOW at time 50 and
to a DENY (expired) at time 200 — the decision depends on the current
clock time, so it is not the same in every revision of the check. -/
theorem viewPatientDetails_time_dependent :
    viewPatientDetailsGate exParseDT 50 dbAppts "a1" = ViewGate.allow ∧
    viewPatientDetailsGate exParseDT 200 dbAppts "a1" = ViewGate.denyExpired := by
  constructor <;> rfl

/-- C4 (amended): for a fixed database state the server-side checks are
pure functions of the collections they read — in particular they do not
read the appointments collection and take no time input, so repeated
evaluation yields the same decision — while the doctor-dashboard
`viewPatientDetails` revision is time-independent only for appointments
whose status is not `accepted`. -/
theorem consent_checks_state_determinism :
    (∀ (db : Db) (appts : List Appointment) (uid rid : String),
      signedUrlCheck { db with appointments := appts } uid rid =
        signedUrlCheck db uid rid) ∧
    (∀ (db : Db) (appts : List Appointment) (uid rid : String),
      analyzeCheck { db with appointments := appts } uid rid =
        analyzeCheck db uid rid) ∧
    (∀ (parse : String → String → Int) (now now' : Int) (db : Db)
        (aid : String) (a : Appointment),
      findAppointment db aid = some a → a.status ≠ "accepted" →
      viewPatientDetailsGate parse now db aid =
        viewPatientDetailsGate parse now' db aid) := by
  refine ⟨fun db appts uid rid => by cases db; rfl,
          fun db appts uid rid => by cases db; rfl,
          fun parse now now' db aid a hfind hs => ?_⟩
  unfold viewPatientDetailsGate
  rw [hfind]
  simp [hs]

/-- Witness for `consent_checks_state_determinism` at concrete inputs:
swapping in a different appointments list does not change the signed-url
decision, and the gate on the non-accepted appointment `a2` is the same
at times 50 and 200. -/
theorem consent_checks_state_determinism_witness :
    signedUrlCheck { dbOwner with appointments := dbAppts.appointments } "p2" "r2" =
      signedUrlCheck dbOwner "p2" "r2" ∧
    viewPatientDetailsGate exParseDT 50 dbAppts "a2" =
      viewPatientDetailsGate exParseDT 200 dbAppts "a2" :=
  ⟨consent_checks_state_determinism.1 dbOwner dbAppts.appointments "p2" "r2",
   consent_checks_state_determinism.2.2 exParseDT 50 200 dbAppts "a2"
     { id := "a2", patientId := "p1", doctorId := "d1",
       date := "2024-01-02", time := "10:00",
       status := "pending", consentGranted := true } (by rfl) (by decide)⟩

/-- C6: every appointment document created by a patient's
`requestAppointment` call (either revision) has status `pending` and
`consentGranted` false, with `patientId` the requesting user's uid and
`doctorId` the requested doctor. -/
theorem requestAppointment_initial_state :
    (∀ (uid : String) (getProfile : String → Option UserProfile)
        (parse : String → String × String) (doctorId dateTime reason : String)
        (a : AppointmentData),
      requestAppointment (some uid) getProfile parse doctorId dateTime reason =
        .ok a →
      a.status = "pending" ∧ a.consentGranted = false ∧
      a.patientId = uid ∧ a.doctorId = doctorId) ∧
    (∀ (uid email : String) (getProfile : String → Option UserProfile)
        (parse : String → String × String) (doctorId dateTime reason : String)
        (a : AppointmentData),
      requestAppointmentFastPath (some (uid, email)) getProfile parse
        doctorId dateTime reason = .ok a →
      a.status = "pending" ∧ a.consentGranted = false ∧
      a.patientId = uid ∧ a.doctorId = doctorId) := by
  constructor
  · intro uid gp parse did dt rs a h
    simp only [requestAppointment] at h
    cases hp : gp uid <;> rw [hp] at h
    · exact absurd h (by simp)
    · cases hd : gp did <;> rw [hd] at h
      · exact absurd h (by simp)
      · injection h with h
        subst h
        exact ⟨rfl, rfl, rfl, rfl⟩
  · intro uid email gp parse did dt rs a h
    simp only [requestAppointmentFastPath] at h
    cases hd : gp did <;> rw [hd] at h
    · exact absurd h (by simp)
    · injection h with h
      subst h
      exact ⟨rfl, rfl, rfl, rfl⟩

/-- Witness for `requestAppointment_initial_state` on a concrete call. -/
theorem requestAppointment_initial_state_witness :
    requestAppointment (some "p1")
      (fun _ => some { username := "alice", email := "a@x" })
      (fun _ => ("2024-01-01", "10:00")) "d1" "2024-01-01T10:00" "checkup" =
      .ok { patientId := "p1", patientName := "alice", doctorId := "d1",
            doctorName := "Dr. alice", date := "2024-01-01", time := "10:00",
            reason := "checkup", status := "pending", consentGranted := false } ∧
    ("pending" = "pending" ∧ (false : Bool) = false ∧
      "p1" = "p1" ∧ "d1" = "d1") :=
  ⟨by rfl,
   requestAppointment_initial_state.1 "p1"
     (fun _ => some { username := "alice", email := "a@x" })
     (fun _ => ("2024-01-01", "10:00")) "d1" "2024-01-01T10:00" "checkup"
     { patientId := "p1", patientName := "alice", doctorId := "d1",
       doctorName := "Dr. alice", date := "2024-01-01", time := "10:00",
       reason := "checkup", status := "pending", consentGranted := false }
     (by rfl)⟩

/-- C1 counterexample: in a concrete state where the requester's uid
equals the report's patientId (requester `p1`, role `patient`, owner of
report `r1`), the analyze endpoint DENIES the request (403, doctor role
required) — so owner access is not always allowed on every report-serving
endpoint. -/
theorem analyze_denies_owner_counterexample :
    findReport dbPatientOwner "r1" =
      some { id := "r1", patientId := "p1", storagePath := "path1" } ∧
    analyzeCheck dbPatientOwner "p1" "r1" =
      Except.error { status := 403, success := false,
                     error := some "Access denied. Doctor role required." } := by
  constructor <;> rfl

/-- C1 (amended): on the signed-url endpoints, a requester whose uid
equals the report's patientId is always allowed when their role is not
`doctor` (regardless of consent/appointment state); an owner whose role
is `doctor` is allowed iff an approved self-consent exists; and the
analyze endpoint denies every requester whose role is not `doctor`, owner
or not. -/
theorem owner_access_by_endpoint :
    (∀ (db : Db) (uid rid : String) (r : Report),
      findReport db rid = some r → r.patientId = uid →
      lookupRole db uid ≠ some "doctor" →
      signedUrlCheck db uid rid = .ok r ∧
      serverlessSignedUrlCheck db uid rid = .ok r) ∧
    (∀ (db : Db) (uid rid : String) (r : Report),
      findReport db rid = some r → r.patientId = uid →
      lookupRole db uid = some "doctor" →
      (signedUrlCheck db uid rid = .ok r ↔
        hasApprovedConsent db r.patientId uid = true)) ∧
    (∀ (db : Db) (uid rid : String),
      lookupRole db uid ≠ some "doctor" →
      analyzeCheck db uid rid =
        .error { status := 403, success := false,
                 error := some "Access denied. Doctor role required." }) := by
  refine ⟨fun db uid rid r hfind howner hrole => ?_,
          fun db uid rid r hfind howner hrole => ?_,
          fun db uid rid hrole => ?_⟩
  · constructor
    · unfold signedUrlCheck
      rw [hfind]
      simp [howner, hrole]
    · unfold serverlessSignedUrlCheck
      rw [hfind]
      simp [howner, hrole]
  · subst howner
    unfold signedUrlCheck
    rw [hfind]
    cases hcons : hasApprovedConsent db r.patientId r.patientId <;>
      simp [hrole, hcons]
  · unfold analyzeCheck
    simp [hrole]

/-- Witness for `owner_access_by_endpoint`: the concrete owner `p2` (role
`patient`) is allowed on the signed-url check and denied on the analyze
check. -/
theorem owner_access_by_endpoint_witness :
    signedUrlCheck dbOwner "p2" "r2" =
      .ok { id := "r2", patientId := "p2", storagePath := "path2" } ∧
    analyzeCheck dbOwner "p2" "r2" =
      .error { status := 403, success := false,
               error := some "Access denied. Doctor role required." } :=
  ⟨(owner_access_by_endpoint.1 dbOwner "p2" "r2"
      { id := "r2", patientId := "p2", storagePath := "path2" }
      (by rfl) rfl (by decide)).1,
   owner_access_by_endpoint.2.2 dbOwner "p2" "r2" (by decide)⟩

/-- C2: for a requester whose uid differs from the report's patientId,
the consent-gated checks allow access iff the requester's role is
`doctor` and an approved consent record (patientId, doctorId = requester,
status `approved`) exists; in every other case access is denied. -/
theorem nonowner_access_iff_doctor_consent :
    (∀ (db : Db) (uid rid : String) (r : Report),
      findReport db rid = some r → r.patientId ≠ uid →
      (signedUrlCheck db uid rid = .ok r ↔
        lookupRole db uid = some "doctor" ∧
        hasApprovedConsent db r.patientId uid = true)) ∧
    (∀ (db : Db) (uid pid : String), uid ≠ pid →
      ((getPatientReportsForDoctor db (some uid) pid).success = true ↔
        lookupRole db uid = some "doctor" ∧
        hasApprovedConsent db pid uid = true)) := by
  constructor
  · intro db uid rid r hfind hne
    unfold signedUrlCheck
    rw [hfind]
    by_cases hrole : lookupRole db uid = some "doctor"
    · cases hcons : hasApprovedConsent db r.patientId uid <;>
        simp [hrole, hcons]
    · simp [hne, hrole]
  · intro db uid pid _
    unfold getPatientReportsForDoctor
    by_cases hrole : lookupRole db uid = some "doctor"
    · cases hcons : hasApprovedConsent db pid uid <;>
        simp [hrole, hcons]
    · simp [hrole]

/-- Witness for `nonowner_access_iff_doctor_consent`: doctor `d1` with an
approved consent from `p1` is allowed on both checks. -/
theorem nonowner_access_iff_doctor_consent_witness :
    signedUrlCheck dbDoctorConsent "d1" "r1" =
      .ok { id := "r1", patientId := "p1", storagePath := "s1" } ∧
    (getPatientReportsForDoctor dbDoctorConsent (some "d1") "p1").success =
      true :=
  ⟨(nonowner_access_iff_doctor_consent.1 dbDoctorConsent "d1" "r1"
      { id := "r1", patientId := "p1", storagePath := "s1" }
      (by rfl) (by decide)).mpr ⟨by rfl, by rfl⟩,
   (nonowner_access_iff_doctor_consent.2 dbDoctorConsent "d1" "p1"
      (by decide)).mpr ⟨by rfl, by rfl⟩⟩

/-- C3: whenever a consent-gated access check denies, the response is an
authorization error — `success: false`, a 4xx status, an error message —
and carries no signed URL and no other payload; and the full signed-url
handler returns that deny response unchanged, so nothing is partially
disclosed on any deny path. -/
theorem deny_responses_no_disclosure :
    (∀ (db : Db) (uid rid : String) (resp : HttpResponse),
      signedUrlCheck db uid rid = .error resp ∨
      serverlessSignedUrlCheck db uid rid = .error resp ∨
      analyzeCheck db uid rid = .error resp →
      resp.success = false ∧ 400 ≤ resp.status ∧ resp.status < 500 ∧
      resp.error.isSome = true ∧ resp.signedUrl = none ∧
      resp.message = none) ∧
    (∀ (db : Db) (uid rid : String) (resp : HttpResponse)
        (gen : String → Except String String),
      signedUrlCheck db uid rid = .error resp →
      signedUrlHandler db uid rid gen = resp) := by
  constructor
  · intro db uid rid resp h
    rcases h with h | h | h
    · unfold signedUrlCheck at h
      cases hf : findReport db rid <;> simp only [hf] at h
      · injection h with h
        subst h
        decide
      · split at h
        · injection h with h
          subst h
          decide
        · split at h
          · injection h with h
            subst h
            decide
          · exact absurd h (by simp)
    · unfold serverlessSignedUrlCheck at h
      cases hf : findReport db rid <;> simp only [hf] at h
      · injection h with h
        subst h
        decide
      · split at h
        · injection h with h
          subst h
          decide
        · split at h
          · injection h with h
            subst h
            decide
          · exact absurd h (by simp)
    · unfold analyzeCheck at h
      split at h
      · injection h with h
        subst h
        decide
      · cases hf : findReport db rid <;> simp only [hf] at h
        · injection h with h
          subst h
          decide
        · split at h
          · injection h with h
            subst h
            decide
          · exact absurd h (by simp)
  · intro db uid rid resp gen h
    simp only [signedUrlHandler, h]

/-- Witness for `deny_responses_no_disclosure`: the concrete deny for a
stranger requesting report `r2` is a 403 authorization error without a
signed URL, and the full handler returns it unchanged. -/
theorem deny_responses_no_disclosure_witness :
    signedUrlCheck dbOwner "stranger" "r2" =
      .error { status := 403, success := false,
               error := some "Access denied. Only report owner or authorized doctor may download this file." } ∧
    ({ status := 403, success := false,
       error := some "Access denied. Only report owner or authorized doctor may download this file." } : HttpResponse).success = false ∧
    signedUrlHandler dbOwner "stranger" "r2" (fun p => .ok ("signed:" ++ p)) =
      { status := 403, success := false,
        error := some "Access denied. Only report owner or authorized doctor may download this file." } :=
  ⟨by rfl,
   (deny_responses_no_disclosure.1 dbOwner "stranger" "r2" _
     (Or.inl (by rfl))).1,
   deny_responses_no_disclosure.2 dbOwner "stranger" "r2" _
     (fun p => .ok ("signed:" ++ p)) (by rfl)⟩

/-- C5 counterexample: `grantConsent` does not write only the
`consentGranted` field of the appointments document — its update also
writes the `consentGrantedAt` and `updatedAt` timestamp fields. -/
theorem grantConsent_writes_more_than_consentGranted :
    "consentGrantedAt" ∈ grantConsentWrite.fields ∧
    "consentGrantedAt" ≠ "consentGranted" ∧
    grantConsentWrite.fields.all (fun f => f == "consentGranted") = false := by
  refine ⟨?_, ?_, ?_⟩ <;> decide

/-- C5 (amended): no operation anywhere in the code creates or mutates a
document in the `consents` collection — every Firestore write site
targets another collection — and the patient-facing
`grantConsent`/`revokeConsent` operations update only an `appointments`
document, setting `consentGranted` (to true resp. false) together with
consent/update timestamps, never a `consents` document. -/
theorem consents_collection_never_written :
    allFirestoreWrites.all (fun w => w.collection != "consents") = true ∧
    grantConsentWrite.collection = "appointments" ∧
    revokeConsentWrite.collection = "appointments" ∧
    grantConsentWrite.fields =
      ["consentGranted", "consentGrantedAt", "updatedAt"] ∧
    revokeConsentWrite.fields =
      ["consentGranted", "consentRevokedAt", "updatedAt"] ∧
    (∀ a : Appointment, (grantConsentApply a).consentGranted = true) ∧
    (∀ a : Appointment, (revokeConsentApply a).consentGranted = false) := by
  refine ⟨by decide, rfl, rfl, rfl, rfl, fun a => rfl, fun a => rfl⟩

/-- C7: whenever the Gemini call fails (thrown fetch, non-ok response, or
missing/empty generated text), the diet-plan and exercise-plan generators
return `success: true` with the plan equal to the hardcoded sample plan
for the selected type, instead of propagating an error. -/
theorem plan_generators_fallback_to_sample :
    (∀ (dietType prefs : String) (profile : HealthProfile)
        (gem : GeminiOutcome) (save : Except String Unit),
      geminiText gem = none →
      generateDietPlan dietType prefs (some profile) gem save =
        { success := true,
          plan := some (getSampleDietPlan dietType profile
            (dietSwitch dietType prefs).1 (dietSwitch dietType prefs).2.2
            (dietSwitch dietType prefs).2.1),
          goal := some (dietSwitch dietType prefs).1,
          condition := some (dietSwitch dietType prefs).2.2 }) ∧
    (∀ (condition customDisease user : String) (profile : HealthProfile)
        (gem : GeminiOutcome) (save : Except String Unit),
      geminiText gem = none →
      generateExercisePlan condition customDisease (some user) (some profile)
          gem save =
        { success := true,
          plan := some (getSampleExercisePlan condition customDisease profile
            (exerciseSwitch condition customDisease)),
          goal := some (exerciseSwitch condition customDisease) }) := by
  constructor
  · intro dietType prefs profile gem save h
    simp [generateDietPlan, h]
  · intro condition customDisease user profile gem save h
    simp [generateExercisePlan, h]

/-- Witness for `plan_generators_fallback_to_sample` at a concrete failed
call (non-ok Gemini response, blood-pressure plan type). -/
theorem plan_generators_fallback_to_sample_witness :
    geminiText GeminiOutcome.notOk = none ∧
    generateDietPlan "bp-patient" "" (some exProfile) GeminiOutcome.notOk
        (.ok ()) =
      { success := true,
        plan := some (getSampleDietPlan "bp-patient" exProfile
          (dietSwitch "bp-patient" "").1 (dietSwitch "bp-patient" "").2.2
          (dietSwitch "bp-patient" "").2.1),
        goal := some (dietSwitch "bp-patient" "").1,
        condition := some (dietSwitch "bp-patient" "").2.2 } ∧
    generateExercisePlan "bp" "" (some "u1") (some exProfile)
        GeminiOutcome.notOk (.ok ()) =
      { success := true,
        plan := some (getSampleExercisePlan "bp" "" exProfile
          (exerciseSwitch "bp" "")),
        goal := some (exerciseSwitch "bp" "") } :=
  ⟨rfl,
   plan_generators_fallback_to_sample.1 "bp-patient" "" exProfile
     GeminiOutcome.notOk (.ok ()) rfl,
   plan_generators_fallback_to_sample.2 "bp" "" "u1" exProfile
     GeminiOutcome.notOk (.ok ()) rfl⟩

/-- C8 counterexample: in the reports/appointments wrappers the claim
fails — `uploadMedicalReport`'s upload promise rejects to its caller on
a network error and on a caught backend failure instead of returning a
`{ success: false, error }` object, and `grantConsent` returns undefined
on a caught update failure. -/
theorem reports_wrappers_violate_error_contract :
    uploadMedicalReportXhr XhrOutcome.networkError =
      Except.error "Network error during upload" ∧
    uploadMedicalReportXhr (XhrOutcome.loaded 500
        (Except.ok { success := false, error := "Upload failed",
                     reportId := "" })) =
      Except.error "Upload failed" ∧
    grantConsentReturn (Except.error "permission-denied") = none := by
  exact ⟨rfl, rfl, rfl⟩

/-- C8 (amended): in the auth and profile wrappers and in the
result-object reports/appointments wrappers (`getMedicalReports`,
`deleteMedicalReport`, `requestAppointment`), every caught per-call
failure is returned as a `success: false` object carrying the failure
message in `error`, never re-thrown and never reported as success; but
`uploadMedicalReport`'s upload promise rejects to its caller on a
backend error, an invalid JSON response and a network error, and
`grantConsent`/`revokeConsent` swallow caught failures (alert only) and
return undefined instead of an error object. -/
theorem wrappers_catch_failures :
    (∀ (e : String) (up sd : Except String Unit),
      registerUser (.error e) up sd =
        { success := false, error := some e }) ∧
    (∀ (u e : String) (sd : Except String Unit),
      registerUser (.ok u) (.error e) sd =
        { success := false, error := some e }) ∧
    (∀ (u e : String),
      registerUser (.ok u) (.ok ()) (.error e) =
        { success := false, error := some e }) ∧
    (∀ (e : String),
      loginUser (.error e) = { success := false, error := some e }) ∧
    (∀ (uidArg cu : Option String)
        (gd : String → Except String (Option UserProfile)) (userId e : String),
      uidArg.orElse (fun _ => cu) = some userId → gd userId = .error e →
      getUserProfile uidArg cu gd = { success := false, error := some e }) ∧
    (∀ (uid : String) (pd : HealthProfileInput) (e : String),
      saveHealthProfile (some uid) pd (.error e) =
        { success := false, error := some e }) ∧
    (∀ (uid e : String),
      getHealthProfile (some uid) (.error e) =
        { success := false, error := some e }) ∧
    (∀ (uid e : String),
      deleteMedicalReport (some uid) (.error e) =
        { success := false, error := some e }) ∧
    (∀ (uid e : String),
      getMedicalReports (some uid) (.error e) =
        { success := false, error := some e }) ∧
    (∀ (e : String) (addDoc : AppointmentData → Except String Unit),
      requestAppointmentResult (.error e) addDoc =
        { success := false, error := some e }) ∧
    (∀ (a : AppointmentData) (e : String),
      requestAppointmentResult (.ok a) (fun _ => .error e) =
        { success := false, error := some e }) ∧
    (∀ (status : Nat) (e : String),
      uploadMedicalReportXhr (.loaded status (.error e)) =
        .error ("Invalid response from server: " ++ e)) ∧
    uploadMedicalReportXhr .networkError =
      .error "Network error during upload" ∧
    (∀ u : Except String Unit, grantConsentReturn u = none) ∧
    (∀ u : Except String Unit, revokeConsentReturn u = none) := by
  refine ⟨fun e up sd => rfl, fun u e sd => rfl, fun u e => rfl, fun e => rfl,
          fun uidArg cu gd userId e h1 h2 => ?_,
          fun uid pd e => rfl, fun uid e => rfl,
          fun uid e => rfl, fun uid e => rfl,
          fun e addDoc => rfl, fun a e => rfl,
          fun status e => rfl, rfl, fun u => rfl, fun u => rfl⟩
  simp only [getUserProfile, h1, h2]

/-- Witness for `wrappers_catch_failures` at concrete failed calls. -/
theorem wrappers_catch_failures_witness :
    loginUser (.error "auth/wrong-password") =
      { success := false, error := some "auth/wrong-password" } ∧
    getUserProfile (some "u1") none (fun _ => .error "network down") =
      { success := false, error := some "network down" } :=
  ⟨wrappers_catch_failures.2.2.2.1 "auth/wrong-password",
   wrappers_catch_failures.2.2.2.2.1 (some "u1") none
     (fun _ => .error "network down") "u1" "network down" rfl rfl⟩
